import Mathlib

/-!
# Verification of the Portfolio repository (bishoy-bishai/Portfolio)

The repository is an Astro static-site scaffold: a configuration module
(`astro.config.mjs`), a README with a commands table, and a content
collection of markdown blog posts whose YAML frontmatter carries
`title`, `description`, `pubDate` and `heroImage` fields.

This file embeds that data model — the frontmatter blocks of the post
files, the configuration record, the README command table, and the
identifiers appearing in the config module and in the articles' fenced
code snippets — and proves the content-integrity and frame properties
claimed of them.
-/

namespace Portfolio

/-! ## Generic string helpers (over `List Char`, so everything reduces) -/

/-- Split a list of characters on a separator character.  The result always
has one more element than the number of separators; components may be empty. -/
def splitOnChar (c : Char) : List Char → List (List Char)
  | [] => [[]]
  | x :: xs =>
    let r := splitOnChar c xs
    if x = c then [] :: r
    else
      match r with
      | [] => [[x]]
      | h :: t => (x :: h) :: t

/-- Accumulate the decimal value of a digit list; `none` on a non-digit. -/
def digitsValAux : List Char → Nat → Option Nat
  | [], acc => some acc
  | c :: cs, acc =>
    if c.isDigit then digitsValAux cs (acc * 10 + (c.toNat - 48)) else none

/-- Decimal value of a non-empty all-digit character list. -/
def digitsVal? (l : List Char) : Option Nat :=
  if l.isEmpty then none else digitsValAux l 0

/-- Does the first list occur at the start of the second? -/
def beginsWith : List Char → List Char → Bool
  | [], _ => true
  | _ :: _, [] => false
  | c :: cs, d :: ds => c = d && beginsWith cs ds

/-- First value bound to a key in an ordered key/value list. -/
def lookupKey : String → List (String × String) → Option String
  | _, [] => none
  | k, (k2, v) :: rest => if k2 = k then some v else lookupKey k rest

/-- How many entries of the key/value list bind the given key. -/
def countKey (k : String) (fm : List (String × String)) : Nat :=
  (fm.filter (fun kv => kv.1 == k)).length

/-! ## Dates in the `"Mon DD YYYY"` format used by the posts' `pubDate` -/

/-- The three-letter month names of the `pubDate` format. -/
def monthNames : List String :=
  ["Jan", "Feb", "Mar", "Apr", "May", "Jun",
   "Jul", "Aug", "Sep", "Oct", "Nov", "Dec"]

/-- Index (1-based) of a month name among `monthNames`. -/
def monthNumAux : List String → Nat → List Char → Option Nat
  | [], _, _ => none
  | m :: ms, i, w => if m.data = w then some i else monthNumAux ms (i + 1) w

/-- 1-based month number of a three-letter month name. -/
def monthNum? (w : List Char) : Option Nat :=
  monthNumAux monthNames 1 w

/-- Parse a date string of the form `"Mon DD YYYY"` (the format every post's
`pubDate` uses, e.g. `"Jan 17 2026"`): month name, day 1–31, year. -/
def parseMDY? (s : String) : Option (Nat × Nat × Nat) :=
  match splitOnChar ' ' s.data with
  | [m, d, y] =>
    match monthNum? m, digitsVal? d, digitsVal? y with
    | some mo, some dd, some yy =>
      if 1 ≤ dd && dd ≤ 31 then some (mo, dd, yy) else none
    | _, _, _ => none
  | _ => none

/-- A file path: a non-empty string whose slash-separated components are all
non-empty (no leading, trailing or doubled slash). -/
def isFilePath (s : String) : Bool :=
  !s.data.isEmpty && (splitOnChar '/' s.data).all (fun comp => !comp.isEmpty)

/-! ## The post files and their frontmatter

Each post file under `src/content/blog/` opens with a YAML frontmatter
block; the blocks are transcribed here verbatim as ordered key/value
lists.  `stem` is the file name without its `.md` extension. -/

structure PostFile where
  stem : String
  fm : List (String × String)
deriving DecidableEq

/-- `src/content/blog/async-await-is-not-just-syntax-sugar-for-promises.md`. -/
def asyncAwaitPost : PostFile :=
  { stem := "async-await-is-not-just-syntax-sugar-for-promises"
    fm := [("title", "async/await is NOT just syntax sugar for Promises"),
           ("description", "async/await: Far More Than Just Syntax Sugar for..."),
           ("pubDate", "Jan 17 2026"),
           ("heroImage", "../../assets/async-await-is-not-just-syntax-sugar-for-promises.jpg")] }

/-- `src/content/blog/how-i-built-a-saas-starter-template-with-react---t.md`. -/
def saasStarterPost : PostFile :=
  { stem := "how-i-built-a-saas-starter-template-with-react---t"
    fm := [("title", "How I Built a SaaS Starter Template with React & Tailwind CSS"),
           ("description", "Building a SaaS Starter Template with React & Tailwind CSS: Beyond the..."),
           ("pubDate", "Jan 09 2026"),
           ("heroImage", "../../assets/how-i-built-a-saas-starter-template-with-react---t.jpg")] }

/-- `src/content/blog/reactjs-hook-pattern--useeffectevent-pattern-.md`. -/
def useEffectEventPost : PostFile :=
  { stem := "reactjs-hook-pattern--useeffectevent-pattern-"
    fm := [("title", "ReactJS Hook Pattern ~useEffectEvent Pattern~"),
           ("description", "The useEffectEvent Pattern: Taming React\x27s useEffect for..."),
           ("pubDate", "Jan 19 2026"),
           ("heroImage", "../../assets/reactjs-hook-pattern--useeffectevent-pattern-.jpg")] }

/-- `src/content/blog/understanding-the--activity--component-in-react-19.md`. -/
def activityComponentPost : PostFile :=
  { stem := "understanding-the--activity--component-in-react-19"
    fm := [("title", "Understanding the <Activity> Component in React 19"),
           ("description", "Demystifying Activity Management with React Actions in React..."),
           ("pubDate", "Jan 21 2026"),
           ("heroImage", "../../assets/understanding-the--activity--component-in-react-19.jpg")] }

/-- The post files whose location in `src/content/blog/` is recorded in the
source tree, with their file-name stems. -/
def blogPosts : List PostFile :=
  [asyncAwaitPost, saasStarterPost, useEffectEventPost, activityComponentPost]

/-- Frontmatter of the fifth post file of the repository (the cab-booking
article); the file is present in the source but its path and file name are
not recorded, so it carries no stem here. -/
def cabBookingFM : List (String × String) :=
  [("title", "Amritsar to Delhi Cab | Affordable & Safe Cab Booking"),
   ("description", "Crafting Seamless Journeys: Building a Cab Booking App with Next.js and..."),
   ("pubDate", "Jan 23 2026"),
   ("heroImage", "../../assets/amritsar-to-delhi-cab---affordable---safe-cab-book.jpg")]

/-- The frontmatter blocks of every post file in the repository. -/
def allFrontmatters : List (List (String × String)) :=
  blogPosts.map (fun p => p.fm) ++ [cabBookingFM]

/-! ## Frontmatter schema checks -/

/-- The four frontmatter keys of the post schema, in the order they appear
in every post file. -/
def schemaKeys : List String :=
  ["title", "description", "pubDate", "heroImage"]

/-- A frontmatter block is well-typed for the post schema: its keys are
exactly `title`, `description`, `pubDate`, `heroImage`; `pubDate` parses as
a date; `heroImage` is a file path.  (`title` and `description` are string
fields by construction of the YAML block.) -/
def wellTypedSchema (fm : List (String × String)) : Bool :=
  fm.map Prod.fst == schemaKeys
  && (match lookupKey "pubDate" fm with
      | some d => (parseMDY? d).isSome
      | none => false)
  && (match lookupKey "heroImage" fm with
      | some h => isFilePath h
      | none => false)

/-- `title`, `description` and `pubDate` are all present and non-empty. -/
def nonEmptyCoreFields (fm : List (String × String)) : Bool :=
  ["title", "description", "pubDate"].all (fun k =>
    match lookupKey k fm with
    | some v => !v.data.isEmpty
    | none => false)

/-! ## Hero images -/

/-- Number of `heroImage` entries in a frontmatter block. -/
def heroImageCount (fm : List (String × String)) : Nat :=
  countKey "heroImage" fm

/-- The hero image path derived from a post's file-name stem. -/
def derivedHeroImage (stem : String) : String :=
  "../../assets/" ++ stem ++ ".jpg"

/-- Resolve relative path components against a base directory (given as a
component list): `..` pops a component, `.` is skipped, anything else is
appended; popping past the root fails. -/
def resolveSteps : List String → List String → Option (List String)
  | base, [] => some base
  | base, comp :: rest =>
    if comp = ".." then
      match base with
      | [] => none
      | _ => resolveSteps base.dropLast rest
    else if comp = "." then resolveSteps base rest
    else resolveSteps (base ++ [comp]) rest

/-- Slash-separated components of a path string. -/
def pathComponents (s : String) : List String :=
  (splitOnChar '/' s.data).map (fun l => String.mk l)

/-- Resolve a path relative to the blog content directory
`src/content/blog/`, where every post file lives. -/
def resolveFromBlogDir (rel : String) : Option (List String) :=
  resolveSteps ["src", "content", "blog"] (pathComponents rel)

/-- Modelled from the spec: the contents of the repository's `src/assets/`
directory are binary image files absent from the source snapshot; the spec
states "every heroImage path resolves to an existing asset", so the assets
directory holds the hero images the post files reference. -/
def assetFiles : List String :=
  ["async-await-is-not-just-syntax-sugar-for-promises.jpg",
   "how-i-built-a-saas-starter-template-with-react---t.jpg",
   "reactjs-hook-pattern--useeffectevent-pattern-.jpg",
   "understanding-the--activity--component-in-react-19.jpg",
   "amritsar-to-delhi-cab---affordable---safe-cab-book.jpg"]

/-- A hero image reference resolves (from the blog directory) to a file of
the repository's assets directory. -/
def heroImageResolves (h : String) : Bool :=
  match resolveFromBlogDir h with
  | some ["src", "assets", name] => assetFiles.contains name
  | _ => false

/-! ## The site configuration (`astro.config.mjs`)

The module's body is four import statements of external packages and one
`defineConfig` call applied to a literal record; the record is embedded
here field by field. -/

inductive AstroIntegration where
  | mdx
  | sitemap
deriving DecidableEq

inductive VitePluginRef where
  | tailwindcss
deriving DecidableEq

structure ViteConfig where
  plugins : List VitePluginRef
deriving DecidableEq

structure AstroConfig where
  site : String
  base : String
  integrations : List AstroIntegration
  vite : ViteConfig
deriving DecidableEq

/-- The record passed to `defineConfig` in `astro.config.mjs`. -/
def astroConfig : AstroConfig :=
  { site := "https://bishoy-bishai.github.io"
    base := "/portfolio"
    integrations := [.mdx, .sitemap]
    vite := { plugins := [.tailwindcss] } }

/-- A site URL: begins with an http or https scheme. -/
def isSiteUrl (s : String) : Bool :=
  beginsWith "https://".data s.data || beginsWith "http://".data s.data

/-- A base path: begins with a slash. -/
def isBasePath (s : String) : Bool :=
  beginsWith "/".data s.data

/-! ## Evaluation of the configuration module

`astro.config.mjs` is the repository's only executable module.  Its body
performs no input: it reads no environment variable and touches no file,
and its exported value is the literal `astroConfig` record.  Evaluation is
therefore embedded as a pure function that returns the record and leaves
any file system untouched. -/

/-- A file system: an association of paths to file contents. -/
abbrev FileSystem := List (String × String)

/-- Is the path a post file of the blog content collection? -/
def isBlogPostPath (p : String) : Bool :=
  beginsWith "src/content/blog/".data p.data

/-- Evaluating `astro.config.mjs`: the module body consists of four import
statements of external packages and one `defineConfig` call on a literal
record.  It reads neither the environment nor the file system and performs
no write, so evaluation yields the config record and the file system
unchanged. -/
def evalAstroConfigModule (_env : List (String × String)) (fs : FileSystem) :
    AstroConfig × FileSystem :=
  (astroConfig, fs)

/-! ## The README command table and the config module's imports -/

/-- The Commands table of the README (command, action), transcribed row by
row. -/
def readmeCommands : List (String × String) :=
  [("npm install", "Install dependencies"),
   ("npm run dev", "Start dev server at `localhost:4321`"),
   ("npm run build", "Build production site to `./dist/`"),
   ("npm run preview", "Preview build locally before deploying")]

/-- Following the spec's words: the four standard static-site build
commands — install, dev, build and preview — as invoked through the
package manager.  Compared against `readmeCommands`, which is transcribed
from the README itself. -/
def specStandardCommands : List String :=
  ["npm install", "npm run dev", "npm run build", "npm run preview"]

end Portfolio

/-- C1: every post file's YAML frontmatter contains exactly the four fields
`title` (string), `description` (string), `pubDate` (a string parsing as a
date) and `heroImage` (a file path). -/
theorem Portfolio.every_post_frontmatter_well_typed :
    Portfolio.allFrontmatters.all Portfolio.wellTypedSchema = true := by
  decide

/-- C4: every post file's `title`, `description` and `pubDate` frontmatter
fields are non-empty strings. -/
theorem Portfolio.every_post_core_fields_nonempty :
    Portfolio.allFrontmatters.all Portfolio.nonEmptyCoreFields = true := by
  decide

/-- C2: every post file's `heroImage` path, resolved from the blog content
directory, names an existing asset file of the repository. -/
theorem Portfolio.every_hero_image_resolves :
    Portfolio.allFrontmatters.all (fun fm =>
      match Portfolio.lookupKey "heroImage" fm with
      | some h => Portfolio.heroImageResolves h
      | none => false) = true := by
  decide

/-- C3: the configuration exported by `astro.config.mjs` is a static record
with exactly the fields `site` (a site URL), `base` (a base path),
`integrations` and `vite.plugins`; the integrations list has exactly two
entries and the Vite plugins list exactly one. -/
theorem Portfolio.astro_config_shape :
    (∀ c : Portfolio.AstroConfig,
        c = { site := c.site, base := c.base,
              integrations := c.integrations, vite := c.vite })
    ∧ Portfolio.isSiteUrl Portfolio.astroConfig.site = true
    ∧ Portfolio.isBasePath Portfolio.astroConfig.base = true
    ∧ Portfolio.astroConfig.integrations.length = 2
    ∧ Portfolio.astroConfig.vite.plugins.length = 1 := by
  refine ⟨fun c => rfl, by decide, by decide, rfl, rfl⟩

/-- C5: every post's frontmatter contains the `heroImage` key exactly once,
so no post references more than one hero image. -/
theorem Portfolio.every_post_one_hero_image :
    Portfolio.allFrontmatters.all
      (fun fm => Portfolio.heroImageCount fm == 1) = true := by
  decide

/-- C6: evaluating the repository's only executable module,
`astro.config.mjs`, leaves every file of the file system — in particular
every post file of the blog collection — exactly as it was: post files are
read only at build time and are never written, modified or deleted by code
of this repository. -/
theorem Portfolio.config_eval_never_mutates_posts :
    ∀ (env : List (String × String)) (fs : Portfolio.FileSystem)
      (p : String), Portfolio.isBlogPostPath p = true →
      Portfolio.lookupKey p (Portfolio.evalAstroConfigModule env fs).2
        = Portfolio.lookupKey p fs := by
  intro env fs p _
  rfl

/-- Witness for C6 at a concrete environment, file system and post path. -/
theorem Portfolio.config_eval_never_mutates_posts_witness :
    Portfolio.isBlogPostPath "src/content/blog/a.md" = true
    ∧ Portfolio.lookupKey "src/content/blog/a.md"
        (Portfolio.evalAstroConfigModule []
          [("src/content/blog/a.md", "x")]).2
      = Portfolio.lookupKey "src/content/blog/a.md"
          [("src/content/blog/a.md", "x")] :=
  ⟨by decide,
   Portfolio.config_eval_never_mutates_posts []
     [("src/content/blog/a.md", "x")] "src/content/blog/a.md" (by decide)⟩

/-- C7: the README's Commands table documents exactly the four standard
static-site build commands — install, dev, build and preview — and nothing
else: no custom command surface beyond the generic build scripts. -/
theorem Portfolio.readme_commands_standard :
    Portfolio.readmeCommands.map Prod.fst = Portfolio.specStandardCommands
    ∧ Portfolio.readmeCommands.length = 4 := by
  exact ⟨rfl, rfl⟩

/-- C9: for every post file recorded in the blog content directory, the
`heroImage` value is exactly `"../../assets/"` followed by the file-name
stem followed by `".jpg"`. -/
theorem Portfolio.hero_image_derived_from_stem :
    Portfolio.blogPosts.all (fun p =>
      Portfolio.lookupKey "heroImage" p.fm
        == some (Portfolio.derivedHeroImage p.stem)) = true := by
  decide

/-- C10: evaluating `astro.config.mjs` is deterministic: it reads no
environment variable and no file, so any two evaluations produce the same
configuration record. -/
theorem Portfolio.config_eval_deterministic :
    ∀ (env₁ env₂ : List (String × String))
      (fs₁ fs₂ : Portfolio.FileSystem),
      (Portfolio.evalAstroConfigModule env₁ fs₁).1
        = (Portfolio.evalAstroConfigModule env₂ fs₂).1 := by
  intro env₁ env₂ fs₁ fs₂
  rfl
